import Mathlib

/-!
Shallow embedding of the zone-classification core of a basketball
shot-charting app: geometry primitives (`Point`, `Polygon`,
`point_in_polygon` from geom.py), the zone model (`Zone`,
`load_default_zones`, `classify_point` from zone.py), result and column
normalization (`_normalise_result`, `normalize_columns` from storage.py)
and the row-classification adapter (`classify_dataframe` from app.py).
Python floats are modelled as rationals; Python exceptions as
`Except String`.
-/

set_option autoImplicit false
set_option maxRecDepth 8000

deriving instance DecidableEq for Except

/-- 2D point in pixel coordinates (geom.py `Point`). -/
structure Point where
  x : ℚ
  y : ℚ
deriving DecidableEq

/-- Polygon as a sequence of vertices (geom.py `Polygon`).  The `≥ 3`
invariant enforced by `Polygon.__post_init__` is modelled by the fallible
constructor `mkPolygon`. -/
structure Polygon where
  vertices : List Point
deriving DecidableEq

/-- geom.py `Polygon.__post_init__`: fewer than three vertices raises
`ValueError`. -/
def mkPolygon (vs : List Point) : Except String Polygon :=
  if vs.length < 3 then Except.error "A polygon requires at least three vertices."
  else Except.ok ⟨vs⟩

/-- One iteration of the ray-casting loop of geom.py `point_in_polygon`
for the edge from `vj` (= `vertices[(i-1) % n]`) to `vi` (= `vertices[i]`).
`none` models the early `return True` branches (point on the boundary);
`some inside1` is the accumulator passed to the next iteration. -/
def pipIter (x y : ℚ) (vi vj : Point) (inside : Bool) : Option Bool :=
  if (decide (vi.y > y) != decide (vj.y > y)) = true ∧
      x = (vj.x - vi.x) * (y - vi.y) / (vj.y - vi.y) + vi.x then none
  else if vi.y = vj.y ∧ vj.y = y ∧ min vi.x vj.x ≤ x ∧ x ≤ max vi.x vj.x then none
  else if vi.x = vj.x ∧ vj.x = x ∧ min vi.y vj.y ≤ y ∧ y ≤ max vi.y vj.y then none
  else some (if (decide (vi.y > y) != decide (vj.y > y)) = true ∧
      x < (vj.x - vi.x) * (y - vi.y) / (vj.y - vi.y) + vi.x then !inside else inside)

/-- The `for i in range(n)` loop of geom.py `point_in_polygon`, processing
the listed indices in order with accumulator `inside`. -/
def pipAux (x y : ℚ) (vs : List Point) : List Nat → Bool → Bool
  | [], inside => inside
  | i :: rest, inside =>
    match pipIter x y (vs.getD i ⟨0, 0⟩)
        (vs.getD ((i + vs.length - 1) % vs.length) ⟨0, 0⟩) inside with
    | none => true
    | some inside2 => pipAux x y vs rest inside2

/-- geom.py `point_in_polygon`: ray casting with explicit boundary
handling. -/
def point_in_polygon (p : Point) (poly : Polygon) : Bool :=
  pipAux p.x p.y poly.vertices (List.range poly.vertices.length) false

/-- zone.py `Zone`: a named polygon. -/
structure Zone where
  name : String
  polygon : Polygon
deriving DecidableEq

/-- zone.py `_scale_polygon`: scale ratio vertices into absolute pixels.
(The Python code routes the points through the `Polygon` constructor; every
caller passes at least three vertices, so construction never fails.) -/
def _scale_polygon (rel : List (ℚ × ℚ)) (width height : ℚ) : Polygon :=
  ⟨rel.map (fun p => ⟨p.1 * width, p.2 * height⟩)⟩

/-- zone.py `load_default_zones`, parametrised by the pixel dimensions of
the court image.  (In the source the dimensions are the sole data read from
the image file; the existence check and `Image.open` are I/O outside the
embedding.) -/
def load_default_zones (width height : ℚ) : List Zone :=
  let paint := _scale_polygon
    [(38/100, 5/100), (62/100, 5/100), (62/100, 38/100), (38/100, 38/100)]
    width height
  let midrange := _scale_polygon
    [(18/100, 0), (82/100, 0), (88/100, 44/100), (75/100, 75/100),
     (25/100, 75/100), (12/100, 44/100)]
    width height
  let left_corner := _scale_polygon
    [(0, 44/100), (12/100, 44/100), (12/100, 94/100), (0, 94/100)]
    width height
  let right_corner := _scale_polygon
    [(88/100, 44/100), (1, 44/100), (1, 94/100), (88/100, 94/100)]
    width height
  let above_break := _scale_polygon
    [(0, 0), (1, 0), (1, 44/100), (88/100, 44/100), (74/100, 20/100),
     (26/100, 20/100), (12/100, 44/100), (0, 44/100)]
    width height
  [Zone.mk "PAINT" paint,
   Zone.mk "MIDRANGE" midrange,
   Zone.mk "3PT_CORNER" left_corner,
   Zone.mk "3PT_CORNER" right_corner,
   Zone.mk "3PT_ABOVE_BREAK" above_break]

/-- zone.py `classify_point`: label of the first zone containing the point,
`"UNKNOWN"` when none does. -/
def classify_point (x y : ℚ) : List Zone → String
  | [] => "UNKNOWN"
  | z :: rest =>
    if point_in_polygon ⟨x, y⟩ z.polygon then z.name else classify_point x y rest

/-- A cell of an imported table: either a string or a numeric value
(pandas object vs. numeric dtypes). -/
inductive CellValue where
  | str (s : String)
  | num (q : ℚ)
deriving DecidableEq

/-- Python `str(value)` on a cell, as used by `_normalise_result`.
(Numeric formatting of Python differs cosmetically from `toString ℚ`;
every claim exercises string cells only.) -/
def cellStr : CellValue → String
  | CellValue.str s => s
  | CellValue.num q => toString q

/-- storage.py `make_tokens`. -/
def make_tokens : List String := ["make", "made", "hit", "true", "t", "1", "yes", "y"]

/-- storage.py `miss_tokens`. -/
def miss_tokens : List String := ["miss", "missed", "false", "f", "0", "no", "n"]

/-- storage.py `_normalise_result`: trim and lower-case, then match the
fixed token sets; anything else raises `ValueError` naming the value. -/
def _normalise_result (value : String) : Except String String :=
  let text := value.trim.toLower
  if make_tokens.contains text then Except.ok "MAKE"
  else if miss_tokens.contains text then Except.ok "MISS"
  else Except.error ("Result value '" ++ value ++ "' is not recognised as make or miss.")

/-- A pandas DataFrame, modelled as its ordered list of named columns. -/
structure DataFrame where
  cols : List (String × List CellValue)
deriving DecidableEq

/-- `df.columns`. -/
def DataFrame.columns (df : DataFrame) : List String := df.cols.map Prod.fst

/-- `df.rename(columns=rm)`: every column whose name is a key of `rm` is
renamed to the mapped value; data and order are untouched. -/
def DataFrame.rename (df : DataFrame) (rm : List (String × String)) : DataFrame :=
  ⟨df.cols.map (fun c => (((rm.find? (fun p => p.1 = c.1)).map Prod.snd).getD c.1, c.2))⟩

/-- `df[name]` as an `Option`: the first column with that label. -/
def DataFrame.getCol (df : DataFrame) (name : String) : Option (List CellValue) :=
  (df.cols.find? (fun c => c.1 = name)).map Prod.snd

/-- `df[name] = vals`: replace the column in place when the label exists,
append it otherwise (pandas item assignment). -/
def DataFrame.setCol (df : DataFrame) (name : String) (vals : List CellValue) : DataFrame :=
  if df.cols.any (fun c => c.1 = name) then
    ⟨df.cols.map (fun c => if c.1 = name then (name, vals) else c)⟩
  else ⟨df.cols ++ [(name, vals)]⟩

/-- `sorted(required.difference(mapping.keys()))` for
`required = {"x", "y", "result"}`; the filtered base list is already in
Python lexicographic order. -/
def required_missing (mapping : List (String × String)) : List String :=
  ["result", "x", "y"].filter (fun t => !(mapping.map Prod.fst).contains t)

/-- Python dict assignment `d[k] = v`: overwrite in place or append. -/
def dictInsert (d : List (String × String)) (k v : String) : List (String × String) :=
  if d.any (fun p => p.1 = k) then d.map (fun p => if p.1 = k then (k, v) else p)
  else d ++ [(k, v)]

/-- The `for target, source in mapping.items()` loop of storage.py
`normalize_columns`: reject the first source column absent from the table,
otherwise accumulate `rename_map[source] = target`. -/
def buildRenameMap (columns : List String) :
    List (String × String) → List (String × String) → Except String (List (String × String))
  | [], acc => Except.ok acc
  | (target, source) :: rest, acc =>
    if columns.contains source then
      buildRenameMap columns rest (dictInsert acc source target)
    else Except.error ("Source column '" ++ source ++ "' not found in the imported data.")

/-- `pd.to_numeric(·, errors="coerce")` on one cell: numeric cells pass
through; string cells are parsed as integer literals (the fragment of the
pandas parser the claims exercise); anything else coerces to NaN (`none`). -/
def to_numeric_cell : CellValue → Option ℚ
  | CellValue.num q => some q
  | CellValue.str s => (s.toInt?).map (fun i => (i : ℚ))

/-- The per-coordinate block of storage.py `normalize_columns`:
`normalized[c] = pd.to_numeric(normalized[c], errors="coerce")` followed by
the NaN check.  A missing column is Python's uncaught `KeyError`. -/
def coerce_coordinate (df : DataFrame) (name : String) : Except String DataFrame :=
  match df.getCol name with
  | none => Except.error ("KeyError: '" ++ name ++ "'")
  | some vals =>
    let nums := vals.map to_numeric_cell
    if nums.any (fun o => o.isNone) then
      Except.error ("Column '" ++ name ++ "' contains non-numeric values after conversion.")
    else Except.ok (df.setCol name (nums.map (fun o => CellValue.num (o.getD 0))))

/-- `normalized["result"] = normalized["result"].apply(_normalise_result)`:
the first `ValueError` raised by `_normalise_result` aborts the whole
operation. -/
def apply_result (df : DataFrame) : Except String DataFrame :=
  match df.getCol "result" with
  | none => Except.error "KeyError: 'result'"
  | some vals =>
    match vals.mapM (fun c => _normalise_result (cellStr c)) with
    | Except.error e => Except.error e
    | Except.ok rs => Except.ok (df.setCol "result" (rs.map CellValue.str))

/-- storage.py `normalize_columns`: check the required logical fields are
mapped, check every source column exists while building the rename map,
rename (returning a copy), coerce `x` and `y` to numeric, normalise the
`result` column. -/
def normalize_columns (df : DataFrame) (mapping : List (String × String)) :
    Except String DataFrame :=
  let missing := required_missing mapping
  if missing.isEmpty then
    match buildRenameMap df.columns mapping [] with
    | Except.error e => Except.error e
    | Except.ok rm =>
      match coerce_coordinate (df.rename rm) "x" with
      | Except.error e => Except.error e
      | Except.ok df1 =>
        match coerce_coordinate df1 "y" with
        | Except.error e => Except.error e
        | Except.ok df2 => apply_result df2
  else Except.error ("Missing mappings for: " ++ String.intercalate ", " missing ++ ".")

/-- The comprehension body of app.py `classify_dataframe`:
`classify_point(float(row["x"]), float(row["y"]), zones)`, where `float` on
a non-numeric cell is Python's uncaught `ValueError`. -/
def classify_row (zones : List Zone) (c : CellValue × CellValue) : Except String String :=
  match to_numeric_cell c.1, to_numeric_cell c.2 with
  | some a, some b => Except.ok (classify_point a b zones)
  | _, _ => Except.error "could not convert value to float"

/-- app.py `classify_dataframe`: copy the table and append a `zone` column
obtained by running each row's `(x, y)` through `classify_point`. -/
def classify_dataframe (df : DataFrame) (zones : List Zone) : Except String DataFrame :=
  match df.getCol "x", df.getCol "y" with
  | some xs, some ys =>
    match (xs.zip ys).mapM (classify_row zones) with
    | Except.error e => Except.error e
    | Except.ok names => Except.ok (df.setCol "zone" (names.map CellValue.str))
  | _, _ => Except.error "KeyError"

/-! ### Geometry helper lemmas -/

/-- If index `i` of the loop triggers an early `return True`, the whole loop
returns `true` regardless of the accumulator (there is no early `False`). -/
theorem pipAux_of_early (x y : ℚ) (vs : List Point) (i : Nat)
    (he : ∀ b : Bool, pipIter x y (vs.getD i ⟨0, 0⟩)
      (vs.getD ((i + vs.length - 1) % vs.length) ⟨0, 0⟩) b = none) :
    ∀ (l : List Nat) (b : Bool), i ∈ l → pipAux x y vs l b = true := by
  intro l
  induction l with
  | nil => intro b h; exact absurd h (List.not_mem_nil i)
  | cons a t ih =>
    intro b hmem
    rcases List.mem_cons.mp hmem with h | h
    · subst h
      simp only [pipAux]
      rw [he b]
    · cases hit : pipIter x y (vs.getD a ⟨0, 0⟩)
          (vs.getD ((a + vs.length - 1) % vs.length) ⟨0, 0⟩) b with
      | none => simp only [pipAux]; rw [hit]
      | some b2 =>
        simp only [pipAux]
        rw [hit]
        exact ih b2 h

/-- Edge from a strictly higher previous vertex down into the query vertex:
the crossing test fires and the x-intercept equals the vertex's own x. -/
theorem pipIter_early_prev_above (x y : ℚ) (vj : Point) (h : y < vj.y) (b : Bool) :
    pipIter x y ⟨x, y⟩ vj b = none := by
  have hix : x = (vj.x - (⟨x, y⟩ : Point).x) * (y - (⟨x, y⟩ : Point).y) /
      (vj.y - (⟨x, y⟩ : Point).y) + (⟨x, y⟩ : Point).x := by
    simp
  have hcross : (decide ((⟨x, y⟩ : Point).y > y) != decide (vj.y > y)) = true := by
    simp [h, lt_irrefl]
  simp only [pipIter]
  rw [if_pos ⟨hcross, hix⟩]

/-- Edge from the query vertex up to a strictly higher next vertex: the
crossing test fires and the x-intercept equals the vertex's own x. -/
theorem pipIter_early_next_above (x y : ℚ) (vi : Point) (h : y < vi.y) (b : Bool) :
    pipIter x y vi ⟨x, y⟩ b = none := by
  have hyne : y - vi.y ≠ 0 := sub_ne_zero.mpr (ne_of_lt h)
  have hix : x = ((⟨x, y⟩ : Point).x - vi.x) * (y - vi.y) /
      ((⟨x, y⟩ : Point).y - vi.y) + vi.x := by
    show x = (x - vi.x) * (y - vi.y) / (y - vi.y) + vi.x
    rw [mul_div_assoc, div_self hyne, mul_one, sub_add_cancel]
  have hcross : (decide (vi.y > y) != decide ((⟨x, y⟩ : Point).y > y)) = true := by
    simp [h, lt_irrefl]
  simp only [pipIter]
  rw [if_pos ⟨hcross, hix⟩]

/-- Horizontal edge between the query vertex and its previous neighbour:
the explicit horizontal boundary check fires. -/
theorem pipIter_early_prev_eq (x y : ℚ) (vj : Point) (h : vj.y = y) (b : Bool) :
    pipIter x y ⟨x, y⟩ vj b = none := by
  have hcross : ¬ ((decide ((⟨x, y⟩ : Point).y > y) != decide (vj.y > y)) = true ∧
      x = (vj.x - (⟨x, y⟩ : Point).x) * (y - (⟨x, y⟩ : Point).y) /
        (vj.y - (⟨x, y⟩ : Point).y) + (⟨x, y⟩ : Point).x) := by
    intro hc
    have hcc := hc.1
    simp [h, lt_irrefl] at hcc
  have hhoriz : (⟨x, y⟩ : Point).y = vj.y ∧ vj.y = y ∧
      min (⟨x, y⟩ : Point).x vj.x ≤ x ∧ x ≤ max (⟨x, y⟩ : Point).x vj.x :=
    ⟨h.symm, h, min_le_left x vj.x, le_max_left x vj.x⟩
  simp only [pipIter]
  rw [if_neg hcross, if_pos hhoriz]

/-- Horizontal edge between the query vertex and its next neighbour: the
explicit horizontal boundary check fires. -/
theorem pipIter_early_next_eq (x y : ℚ) (vi : Point) (h : vi.y = y) (b : Bool) :
    pipIter x y vi ⟨x, y⟩ b = none := by
  have hcross : ¬ ((decide (vi.y > y) != decide ((⟨x, y⟩ : Point).y > y)) = true ∧
      x = ((⟨x, y⟩ : Point).x - vi.x) * (y - vi.y) /
        ((⟨x, y⟩ : Point).y - vi.y) + vi.x) := by
    intro hc
    have hcc := hc.1
    simp [h, lt_irrefl] at hcc
  simp only [pipIter]
  rw [if_neg hcross]
  simp [h]

/-- Index arithmetic: in the loop iteration that visits index `(k+1) % n`,
the edge's other endpoint `((k+1) % n + n - 1) % n` is `k` itself. -/
theorem next_prev_index (k n : Nat) (hk : k < n) : ((k + 1) % n + n - 1) % n = k := by
  rcases Nat.lt_or_ge (k + 1) n with h | h
  · rw [Nat.mod_eq_of_lt h]
    have h2 : k + 1 + n - 1 = k + n := by omega
    rw [h2, Nat.add_mod_right]
    exact Nat.mod_eq_of_lt hk
  · have hn : n = k + 1 := by omega
    subst hn
    rw [Nat.mod_self]
    have h1 : 0 + (k + 1) - 1 = k := by omega
    rw [h1, Nat.mod_eq_of_lt (by omega)]

/-! ### C1 -/

/-- C1 (counterexample): the claim "`point_in_polygon(v, polygon)` returns
true for every vertex `v` of a well-formed polygon" fails at the apex
`(1, 1)` of the triangle `(0,0), (2,0), (1,1)`: both neighbours lie
strictly below it, so no edge triggers a crossing or a boundary check. -/
theorem C1_counterexample :
    3 ≤ (Polygon.mk [⟨0, 0⟩, ⟨2, 0⟩, ⟨1, 1⟩]).vertices.length ∧
    (⟨1, 1⟩ : Point) ∈ (Polygon.mk [⟨0, 0⟩, ⟨2, 0⟩, ⟨1, 1⟩]).vertices ∧
    point_in_polygon ⟨1, 1⟩ (Polygon.mk [⟨0, 0⟩, ⟨2, 0⟩, ⟨1, 1⟩]) = false := by
  with_unfolding_all decide

/-- C1 (amended): for every well-formed polygon (at least 3 vertices) and
every vertex `v` of it that has an adjacent vertex whose y-coordinate is
greater than or equal to `v`'s, `point_in_polygon(v, polygon)` returns
true.  (A vertex that is a strict local maximum in y may be classified
outside, as `C1_counterexample` shows.) -/
theorem C1_point_in_polygon_vertex (poly : Polygon) (k : Nat)
    (h3 : 3 ≤ poly.vertices.length) (hk : k < poly.vertices.length)
    (hnb : (poly.vertices.getD ((k + 1) % poly.vertices.length) ⟨0, 0⟩).y ≥
             (poly.vertices.getD k ⟨0, 0⟩).y ∨
           (poly.vertices.getD ((k + poly.vertices.length - 1) %
               poly.vertices.length) ⟨0, 0⟩).y ≥
             (poly.vertices.getD k ⟨0, 0⟩).y) :
    point_in_polygon (poly.vertices.getD k ⟨0, 0⟩) poly = true := by
  have hn : 0 < poly.vertices.length := by omega
  unfold point_in_polygon
  rcases hnb with hnext | hprev
  · have hi : (k + 1) % poly.vertices.length < poly.vertices.length :=
      Nat.mod_lt _ hn
    refine pipAux_of_early _ _ _ ((k + 1) % poly.vertices.length) ?_ _ _
      (List.mem_range.mpr hi)
    intro b
    rw [next_prev_index k poly.vertices.length hk]
    rcases hnext.lt_or_eq with hlt | heq
    · exact pipIter_early_next_above _ _ _ hlt b
    · exact pipIter_early_next_eq _ _ _ heq.symm b
  · refine pipAux_of_early _ _ _ k ?_ _ _ (List.mem_range.mpr hk)
    intro b
    rcases hprev.lt_or_eq with hlt | heq
    · exact pipIter_early_prev_above _ _ _ hlt b
    · exact pipIter_early_prev_eq _ _ _ heq.symm b

/-- C1 witness: vertex `(0, 0)` of the triangle `(0,0), (2,0), (1,1)` has
its next neighbour `(2, 0)` at the same height, and is classified inside. -/
theorem C1_witness :
    point_in_polygon ⟨0, 0⟩ (Polygon.mk [⟨0, 0⟩, ⟨2, 0⟩, ⟨1, 1⟩]) = true :=
  C1_point_in_polygon_vertex (Polygon.mk [⟨0, 0⟩, ⟨2, 0⟩, ⟨1, 1⟩]) 0
    (by decide) (by decide) (Or.inl (by with_unfolding_all decide))

/-! ### C2 -/

/-- C2 (counterexample): against a 600-wide by 500-high reference image the
far-corner point `(10, 490)` does not classify as `"3PT_CORNER"`: the
corner templates only extend down to `0.94 * 500 = 470` pixels. -/
theorem C2_counterexample :
    classify_point 10 490 (load_default_zones 600 500) ≠ "3PT_CORNER" := by
  with_unfolding_all decide

/-- C2 (amended): with the default zones scaled to a 600-wide by 500-high
reference image, `classify_point(300, 100, zones)` returns `"PAINT"`, and
`classify_point(10, 490, zones)` returns `"UNKNOWN"` (the point lies below
every zone template, including the corner-3 ones). -/
theorem C2_default_zones_classification :
    classify_point 300 100 (load_default_zones 600 500) = "PAINT" ∧
    classify_point 10 490 (load_default_zones 600 500) = "UNKNOWN" := by
  with_unfolding_all decide

/-! ### C10 -/

/-- C10: for every point, `classify_point` applied to the empty zone list
returns `"UNKNOWN"` without failing. -/
theorem C10_classify_point_nil (x y : ℚ) : classify_point x y [] = "UNKNOWN" := rfl

/-! ### C3 -/

/-- C3: for every point and ordered zone list, if the first zone whose
polygon contains the point is `z` (so in particular some zone contains it),
`classify_point` returns `z`'s name; with two overlapping zones both
containing the point, the earlier one wins. -/
theorem C3_classify_point_first_match (x y : ℚ) (zones : List Zone) (z : Zone)
    (h : zones.find? (fun w => point_in_polygon ⟨x, y⟩ w.polygon) = some z) :
    classify_point x y zones = z.name := by
  induction zones with
  | nil => simp [List.find?] at h
  | cons a t ih =>
    cases hpa : point_in_polygon ⟨x, y⟩ a.polygon with
    | true =>
      have hfa : List.find? (fun w => point_in_polygon ⟨x, y⟩ w.polygon) (a :: t) =
          some a := by
        simp [List.find?_cons, hpa]
      rw [hfa] at h
      cases h
      simp [classify_point, hpa]
    | false =>
      have hfa : List.find? (fun w => point_in_polygon ⟨x, y⟩ w.polygon) (a :: t) =
          List.find? (fun w => point_in_polygon ⟨x, y⟩ w.polygon) t := by
        simp [List.find?_cons, hpa]
      rw [hfa] at h
      simp only [classify_point, hpa, Bool.false_eq_true, if_false]
      exact ih h

/-- Two overlapping unit-square zones used by the C3 and C4 witnesses. -/
def zoneA : Zone := ⟨"A", ⟨[⟨0, 0⟩, ⟨4, 0⟩, ⟨4, 4⟩, ⟨0, 4⟩]⟩⟩

/-- Second overlapping zone, listed after `zoneA`. -/
def zoneB : Zone := ⟨"B", ⟨[⟨0, 0⟩, ⟨4, 0⟩, ⟨4, 4⟩, ⟨0, 4⟩]⟩⟩

/-- C3 witness: `(1, 1)` lies in both `zoneA` and `zoneB`; the first match
is `zoneA` and classification returns `"A"`. -/
theorem C3_witness : classify_point 1 1 [zoneA, zoneB] = "A" :=
  C3_classify_point_first_match 1 1 [zoneA, zoneB] zoneA
    (by with_unfolding_all decide)

/-! ### C4 -/

/-- C4 (counterexample): the claim "`classify_point` returns `"UNKNOWN"`
exactly when no zone's polygon contains the point" fails for a zone that is
itself named `"UNKNOWN"`: the sentinel is returned although a zone contains
the point. -/
theorem C4_counterexample :
    classify_point 1 1 [⟨"UNKNOWN", ⟨[⟨0, 0⟩, ⟨4, 0⟩, ⟨4, 4⟩, ⟨0, 4⟩]⟩⟩] = "UNKNOWN" ∧
    point_in_polygon ⟨1, 1⟩ (⟨[⟨0, 0⟩, ⟨4, 0⟩, ⟨4, 4⟩, ⟨0, 4⟩]⟩ : Polygon) = true := by
  with_unfolding_all decide

/-- C4 (amended): `classify_point` always returns a string (it is total,
modelling "never raises"), and for every zone list in which no zone bears
the sentinel name `"UNKNOWN"`, it returns `"UNKNOWN"` exactly when no
zone's polygon contains the point. -/
theorem C4_classify_point_unknown_iff (x y : ℚ) (zones : List Zone)
    (h : ∀ z ∈ zones, z.name ≠ "UNKNOWN") :
    (classify_point x y zones = "UNKNOWN" ↔
      ∀ z ∈ zones, point_in_polygon ⟨x, y⟩ z.polygon = false) := by
  induction zones with
  | nil => simp [classify_point]
  | cons a t ih =>
    have ha := h a (List.mem_cons_self a t)
    have ht : ∀ z ∈ t, z.name ≠ "UNKNOWN" :=
      fun z hz => h z (List.mem_cons_of_mem a hz)
    cases hpa : point_in_polygon ⟨x, y⟩ a.polygon with
    | true =>
      simp only [classify_point, hpa, if_true]
      constructor
      · intro hn; exact absurd hn ha
      · intro hall
        have := hall a (List.mem_cons_self a t)
        rw [hpa] at this
        cases this
    | false =>
      simp only [classify_point, hpa, Bool.false_eq_true, if_false]
      rw [ih ht]
      constructor
      · intro hall z hz
        rcases List.mem_cons.mp hz with hz1 | hz2
        · rw [hz1]; exact hpa
        · exact hall z hz2
      · intro hall z hz
        exact hall z (List.mem_cons_of_mem a hz)

/-- C4 witness: with the single zone `zoneA` (not named `"UNKNOWN"`) and the
outside point `(100, 100)`, classification returns the sentinel. -/
theorem C4_witness : classify_point 100 100 [zoneA] = "UNKNOWN" :=
  (C4_classify_point_unknown_iff 100 100 [zoneA]
      (by with_unfolding_all decide)).mpr
    (by with_unfolding_all decide)

/-! ### C5 -/

/-- The two token sets are disjoint: a recognised miss token is never a
make token (so the make-first check order cannot misclassify). -/
theorem miss_not_make (t : String) (h : t ∈ miss_tokens) : t ∉ make_tokens := by
  simp only [miss_tokens, List.mem_cons, List.not_mem_nil, or_false] at h
  rcases h with rfl | rfl | rfl | rfl | rfl | rfl | rfl <;> decide

/-- C5: `_normalise_result` returns `"MAKE"` whenever the trimmed,
lower-cased value is a make token, `"MISS"` whenever it is a miss token,
and otherwise fails with the error message naming the offending value
(it never silently defaults). -/
theorem C5_normalise_result_spec (value : String) :
    (value.trim.toLower ∈ make_tokens →
      _normalise_result value = Except.ok "MAKE") ∧
    (value.trim.toLower ∈ miss_tokens →
      _normalise_result value = Except.ok "MISS") ∧
    (value.trim.toLower ∉ make_tokens →
      value.trim.toLower ∉ miss_tokens →
      _normalise_result value = Except.error
        ("Result value '" ++ value ++ "' is not recognised as make or miss.")) := by
  refine ⟨fun h => ?_, fun h => ?_, fun h1 h2 => ?_⟩
  · simp [_normalise_result, h]
  · have hm := miss_not_make _ h
    simp [_normalise_result, h, hm]
  · simp [_normalise_result, h1, h2]

/-- C5 witness: the spec's own examples, with whitespace and case noise and
an unrecognised value. -/
theorem C5_witness :
    _normalise_result " MAKE " = Except.ok "MAKE" ∧
    _normalise_result "0" = Except.ok "MISS" ∧
    _normalise_result "unknown_value" = Except.error
      "Result value 'unknown_value' is not recognised as make or miss." :=
  ⟨(C5_normalise_result_spec " MAKE ").1 (by with_unfolding_all decide),
   (C5_normalise_result_spec "0").2.1 (by with_unfolding_all decide),
   (C5_normalise_result_spec "unknown_value").2.2 (by with_unfolding_all decide)
     (by with_unfolding_all decide)⟩

/-! ### C7 -/

/-- C7: for every table and every mapping that lacks one of the required
logical fields `x`, `y`, `result`, `normalize_columns` fails with the
missing-mappings error, and the reported list contains exactly the absent
required fields. -/
theorem C7_normalize_columns_missing_mapping (df : DataFrame)
    (mapping : List (String × String))
    (h : ∃ t ∈ (["x", "y", "result"] : List String),
      (mapping.map Prod.fst).contains t = false) :
    normalize_columns df mapping =
      Except.error ("Missing mappings for: " ++
        String.intercalate ", " (required_missing mapping) ++ ".") ∧
    ∀ t ∈ (["x", "y", "result"] : List String),
      ((mapping.map Prod.fst).contains t = false ↔ t ∈ required_missing mapping) := by
  have hmem : ∀ t ∈ (["x", "y", "result"] : List String),
      ((mapping.map Prod.fst).contains t = false ↔ t ∈ required_missing mapping) := by
    intro t ht
    have ht2 : t ∈ (["result", "x", "y"] : List String) := by
      simp only [List.mem_cons, List.not_mem_nil, or_false] at ht ⊢
      tauto
    constructor
    · intro hc
      exact List.mem_filter.mpr ⟨ht2, by rw [hc]; rfl⟩
    · intro hf
      have hpf := (List.mem_filter.mp hf).2
      cases hcc : (mapping.map Prod.fst).contains t
      · rfl
      · rw [hcc] at hpf; cases hpf
  refine ⟨?_, hmem⟩
  obtain ⟨t, ht, hc⟩ := h
  have htm : t ∈ required_missing mapping := (hmem t ht).mp hc
  have hne : required_missing mapping ≠ [] := List.ne_nil_of_mem htm
  have hemp : (required_missing mapping).isEmpty = false := by
    cases hq : required_missing mapping
    · exact absurd hq hne
    · rfl
  simp [normalize_columns, hemp]

/-- C7 witness: the mapping `{x: "sx", y: "sy"}` (no `result`) fails on a
concrete table with the error naming `result`. -/
theorem C7_witness :
    normalize_columns ⟨[("sx", []), ("sy", [])]⟩ [("x", "sx"), ("y", "sy")] =
      Except.error "Missing mappings for: result." :=
  (C7_normalize_columns_missing_mapping ⟨[("sx", []), ("sy", [])]⟩
    [("x", "sx"), ("y", "sy")] ⟨"result", by decide, by decide⟩).1

/-! ### C8 -/

/-- C8: constructing a `Polygon` from fewer than 3 vertices raises the
construction error, and every successfully constructed `Polygon` has at
least 3 vertices. -/
theorem C8_mkPolygon_spec (vs : List Point) :
    (vs.length < 3 →
      mkPolygon vs = Except.error "A polygon requires at least three vertices.") ∧
    (∀ p : Polygon, mkPolygon vs = Except.ok p → 3 ≤ p.vertices.length) := by
  constructor
  · intro h
    simp [mkPolygon, h]
  · intro p hp
    by_cases h : vs.length < 3
    · simp [mkPolygon, h] at hp
    · unfold mkPolygon at hp
      rw [if_neg h] at hp
      cases hp
      show 3 ≤ vs.length
      omega

/-- C8 witness: the empty vertex list is rejected; a triangle is accepted
with its 3 vertices. -/
theorem C8_witness :
    mkPolygon [] = Except.error "A polygon requires at least three vertices." ∧
    3 ≤ (Polygon.mk [⟨0, 0⟩, ⟨1, 0⟩, ⟨0, 1⟩]).vertices.length :=
  ⟨(C8_mkPolygon_spec []).1 (by decide),
   (C8_mkPolygon_spec [⟨0, 0⟩, ⟨1, 0⟩, ⟨0, 1⟩]).2
     (Polygon.mk [⟨0, 0⟩, ⟨1, 0⟩, ⟨0, 1⟩]) rfl⟩

/-! ### Table helper lemmas -/

/-- Value of a successful `Except`, with a default for the error case. -/
def okValue {α : Type} (dflt : α) : Except String α → α
  | Except.ok a => a
  | Except.error _ => dflt

/-- `mapM` over a list on which `f` always succeeds is `ok` of the
element-wise results. -/
theorem mapM_eq_map_of_ok {α β : Type} (f : α → Except String β) (dflt : β) :
    ∀ l : List α, (∀ a ∈ l, ∃ b, f a = Except.ok b) →
      l.mapM f = Except.ok (l.map (fun a => okValue dflt (f a))) := by
  intro l
  induction l with
  | nil => intro _; rfl
  | cons a t ih =>
    intro h
    obtain ⟨b, hb⟩ := h a (List.mem_cons_self a t)
    have ht := ih (fun a2 ha2 => h a2 (List.mem_cons_of_mem a ha2))
    rw [List.mapM_cons, hb, ht]
    show Except.ok (b :: List.map (fun x => okValue dflt (f x)) t) =
      Except.ok (List.map (fun x => okValue dflt (f x)) (a :: t))
    rw [List.map_cons, hb]
    rfl

/-- A column of cells that all coerce numerically has no NaN. -/
theorem any_isNone_false (vals : List CellValue)
    (h : ∀ c ∈ vals, (to_numeric_cell c).isSome = true) :
    (vals.map to_numeric_cell).any (fun o => o.isNone) = false := by
  induction vals with
  | nil => rfl
  | cons a t ih =>
    have ha := h a (List.mem_cons_self a t)
    have ht := ih (fun c hc => h c (List.mem_cons_of_mem a hc))
    obtain ⟨q, hq⟩ := Option.isSome_iff_exists.mp ha
    simp [List.any_cons, hq, ht]

/-- A label absent from the column names makes the `setCol` existence test
false. -/
theorem any_name_false (cols : List (String × List CellValue)) (name : String)
    (h : name ∉ cols.map Prod.fst) :
    cols.any (fun c => c.1 = name) = false := by
  induction cols with
  | nil => rfl
  | cons a t ih =>
    simp only [List.map_cons, List.mem_cons] at h
    push_neg at h
    have h1 : a.1 ≠ name := Ne.symm h.1
    simp [List.any_cons, h1, ih h.2]

/-- Coercing the `x` column of the renamed three-column table. -/
theorem coerce_x (xs ys rs : List CellValue)
    (hxs : ∀ c ∈ xs, (to_numeric_cell c).isSome = true) :
    coerce_coordinate ⟨[("x", xs), ("y", ys), ("result", rs)]⟩ "x" =
      Except.ok ⟨[("x", xs.map (fun c => CellValue.num ((to_numeric_cell c).getD 0))),
        ("y", ys), ("result", rs)]⟩ := by
  have hany := any_isNone_false xs hxs
  show (if ((xs.map to_numeric_cell).any (fun o => o.isNone) : Bool) then
      (Except.error "Column 'x' contains non-numeric values after conversion." :
        Except String DataFrame)
    else Except.ok (DataFrame.setCol ⟨[("x", xs), ("y", ys), ("result", rs)]⟩ "x"
      ((xs.map to_numeric_cell).map (fun o => CellValue.num (o.getD 0))))) = _
  rw [hany]
  simp [DataFrame.setCol, List.map_map]

/-- Coercing the `y` column of the three-column table. -/
theorem coerce_y (xv ys rs : List CellValue)
    (hys : ∀ c ∈ ys, (to_numeric_cell c).isSome = true) :
    coerce_coordinate ⟨[("x", xv), ("y", ys), ("result", rs)]⟩ "y" =
      Except.ok ⟨[("x", xv),
        ("y", ys.map (fun c => CellValue.num ((to_numeric_cell c).getD 0))),
        ("result", rs)]⟩ := by
  have hany := any_isNone_false ys hys
  show (if ((ys.map to_numeric_cell).any (fun o => o.isNone) : Bool) then
      (Except.error "Column 'y' contains non-numeric values after conversion." :
        Except String DataFrame)
    else Except.ok (DataFrame.setCol ⟨[("x", xv), ("y", ys), ("result", rs)]⟩ "y"
      ((ys.map to_numeric_cell).map (fun o => CellValue.num (o.getD 0))))) = _
  rw [hany]
  simp [DataFrame.setCol, List.map_map]

/-- Normalising the `result` column of the three-column table when every
cell carries a recognised token. -/
theorem apply_result_tokens (xv yv rs : List CellValue)
    (hok : ∀ c ∈ rs, ∃ b, _normalise_result (cellStr c) = Except.ok b) :
    apply_result ⟨[("x", xv), ("y", yv), ("result", rs)]⟩ =
      Except.ok ⟨[("x", xv), ("y", yv),
        ("result", rs.map (fun c =>
          CellValue.str (okValue "" (_normalise_result (cellStr c)))))]⟩ := by
  have hmm := mapM_eq_map_of_ok (fun c => _normalise_result (cellStr c)) "" rs hok
  show (match rs.mapM (fun c => _normalise_result (cellStr c)) with
    | Except.error e => (Except.error e : Except String DataFrame)
    | Except.ok rs2 =>
      Except.ok (DataFrame.setCol ⟨[("x", xv), ("y", yv), ("result", rs)]⟩ "result"
        (rs2.map CellValue.str))) = _
  rw [hmm]
  simp [DataFrame.setCol, List.map_map]

/-! ### C6 -/

/-- C6: for a table with columns `["sx", "sy", "res"]` whose coordinate
cells are numeric and whose result cells are recognised tokens,
`normalize_columns` with mapping `{x: "sx", y: "sy", result: "res"}`
succeeds and returns a table whose columns are exactly `x`, `y`, `result`,
with `x` and `y` numeric and every result value in `{"MAKE", "MISS"}`
(second conjunct). -/
theorem C6_normalize_columns_roundtrip (xs ys rs : List CellValue)
    (hx : ∀ c ∈ xs, ∃ q, c = CellValue.num q)
    (hy : ∀ c ∈ ys, ∃ q, c = CellValue.num q)
    (hr : ∀ c ∈ rs, ∃ s, c = CellValue.str s ∧
      (s.trim.toLower ∈ make_tokens ∨ s.trim.toLower ∈ miss_tokens)) :
    normalize_columns ⟨[("sx", xs), ("sy", ys), ("res", rs)]⟩
        [("x", "sx"), ("y", "sy"), ("result", "res")] =
      Except.ok ⟨[("x", xs.map (fun c => CellValue.num ((to_numeric_cell c).getD 0))),
        ("y", ys.map (fun c => CellValue.num ((to_numeric_cell c).getD 0))),
        ("result", rs.map (fun c =>
          CellValue.str (okValue "" (_normalise_result (cellStr c)))))]⟩ ∧
    ∀ c ∈ rs, okValue "" (_normalise_result (cellStr c)) = "MAKE" ∨
      okValue "" (_normalise_result (cellStr c)) = "MISS" := by
  have hxs : ∀ c ∈ xs, (to_numeric_cell c).isSome = true := by
    intro c hc
    obtain ⟨q, rfl⟩ := hx c hc
    rfl
  have hys : ∀ c ∈ ys, (to_numeric_cell c).isSome = true := by
    intro c hc
    obtain ⟨q, rfl⟩ := hy c hc
    rfl
  have hok : ∀ c ∈ rs, ∃ b, _normalise_result (cellStr c) = Except.ok b := by
    intro c hc
    obtain ⟨s, rfl, hs⟩ := hr c hc
    by_cases hm : s.trim.toLower ∈ make_tokens
    · exact ⟨"MAKE", by simp [_normalise_result, cellStr, hm]⟩
    · have hmiss : s.trim.toLower ∈ miss_tokens := hs.resolve_left hm
      exact ⟨"MISS", by simp [_normalise_result, cellStr, hm, hmiss]⟩
  constructor
  · show (match coerce_coordinate ⟨[("x", xs), ("y", ys), ("result", rs)]⟩ "x" with
      | Except.error e => (Except.error e : Except String DataFrame)
      | Except.ok df1 =>
        match coerce_coordinate df1 "y" with
        | Except.error e => Except.error e
        | Except.ok df2 => apply_result df2) = _
    rw [coerce_x xs ys rs hxs]
    show (match coerce_coordinate
        ⟨[("x", xs.map (fun c => CellValue.num ((to_numeric_cell c).getD 0))),
          ("y", ys), ("result", rs)]⟩ "y" with
      | Except.error e => (Except.error e : Except String DataFrame)
      | Except.ok df2 => apply_result df2) = _
    rw [coerce_y _ ys rs hys]
    show apply_result
        ⟨[("x", xs.map (fun c => CellValue.num ((to_numeric_cell c).getD 0))),
          ("y", ys.map (fun c => CellValue.num ((to_numeric_cell c).getD 0))),
          ("result", rs)]⟩ = _
    exact apply_result_tokens _ _ rs hok
  · intro c hc
    obtain ⟨s, rfl, hs⟩ := hr c hc
    by_cases hm : s.trim.toLower ∈ make_tokens
    · left
      simp [_normalise_result, cellStr, hm, okValue]
    · right
      have hmiss : s.trim.toLower ∈ miss_tokens := hs.resolve_left hm
      simp [_normalise_result, cellStr, hm, hmiss, okValue]

/-- C6 witness: a one-row table `{sx: 3, sy: 4, res: "make"}` normalises to
`{x: 3, y: 4, result: "MAKE"}`. -/
theorem C6_witness :
    normalize_columns
      ⟨[("sx", [CellValue.num 3]), ("sy", [CellValue.num 4]),
        ("res", [CellValue.str "make"])]⟩
      [("x", "sx"), ("y", "sy"), ("result", "res")] =
    Except.ok ⟨[("x", [CellValue.num 3]), ("y", [CellValue.num 4]),
      ("result", [CellValue.str "MAKE"])]⟩ := by
  have h := (C6_normalize_columns_roundtrip [CellValue.num 3] [CellValue.num 4]
    [CellValue.str "make"]
    (by intro c hc; rw [List.mem_singleton] at hc; exact ⟨3, hc⟩)
    (by intro c hc; rw [List.mem_singleton] at hc; exact ⟨4, hc⟩)
    (by intro c hc; rw [List.mem_singleton] at hc
        exact ⟨"make", hc, Or.inl (by with_unfolding_all decide)⟩)).1
  exact h.trans (by with_unfolding_all decide)

/-! ### C9 -/

/-- C9: row-set classification returns an augmented copy: when the table
has no `zone` column and its `x`/`y` cells are numeric,
`classify_dataframe` succeeds and its result consists of the input's
columns, unchanged and in order, with a `zone` column appended.  (In this
value-level embedding the input itself is immutable by construction, and
`normalize_columns` on failure returns only an error value, so no partially
modified table exists.) -/
theorem C9_classify_dataframe_appends (df : DataFrame) (zones : List Zone)
    (xs ys : List CellValue)
    (hz : "zone" ∉ df.columns)
    (hgx : df.getCol "x" = some xs) (hgy : df.getCol "y" = some ys)
    (hxy : ∀ c ∈ xs.zip ys, (to_numeric_cell c.1).isSome = true ∧
      (to_numeric_cell c.2).isSome = true) :
    classify_dataframe df zones = Except.ok ⟨df.cols ++
      [("zone", (xs.zip ys).map (fun c =>
        CellValue.str (okValue "" (classify_row zones c))))]⟩ := by
  have hok : ∀ c ∈ xs.zip ys, ∃ b, classify_row zones c = Except.ok b := by
    intro c hc
    obtain ⟨ha, hb⟩ := hxy c hc
    obtain ⟨a, haa⟩ := Option.isSome_iff_exists.mp ha
    obtain ⟨b2, hbb⟩ := Option.isSome_iff_exists.mp hb
    exact ⟨classify_point a b2 zones, by simp [classify_row, haa, hbb]⟩
  have hmm := mapM_eq_map_of_ok (classify_row zones) "" (xs.zip ys) hok
  have hany : df.cols.any (fun c => c.1 = "zone") = false :=
    any_name_false df.cols "zone" hz
  unfold classify_dataframe
  rw [hgx, hgy]
  show (match (xs.zip ys).mapM (classify_row zones) with
    | Except.error e => (Except.error e : Except String DataFrame)
    | Except.ok names => Except.ok (df.setCol "zone" (names.map CellValue.str))) = _
  rw [hmm]
  show Except.ok (df.setCol "zone"
    (((xs.zip ys).map (fun c => okValue "" (classify_row zones c))).map
      CellValue.str)) = _
  unfold DataFrame.setCol
  rw [hany]
  simp [List.map_map]

/-- C9 witness: a one-row table `{x: 300, y: 100}` against the default
600 by 500 zones gains the zone column `["PAINT"]`, the original columns
unchanged. -/
theorem C9_witness :
    classify_dataframe ⟨[("x", [CellValue.num 300]), ("y", [CellValue.num 100])]⟩
      (load_default_zones 600 500) =
    Except.ok ⟨[("x", [CellValue.num 300]), ("y", [CellValue.num 100]),
      ("zone", [CellValue.str "PAINT"])]⟩ := by
  have h := C9_classify_dataframe_appends
    ⟨[("x", [CellValue.num 300]), ("y", [CellValue.num 100])]⟩
    (load_default_zones 600 500) [CellValue.num 300] [CellValue.num 100]
    (by decide) rfl rfl (by decide)
  exact h.trans (by with_unfolding_all decide)
